import Mathlib

/-!
Shallow embedding of the neru 6502-emulator core (memory.rs, instruction.rs,
decoder.rs, cpu.rs) and verification of its specification claims.

Bytes and 16-bit words are modelled as `Nat`, with `% 256` at the points where the
source's `u8` type coerces a value. A Rust `panic!` is modelled as `none` of an
`Option` result.
-/

namespace Neru

/-- `const RAM_SIZE: usize = 0x2000` from memory.rs. -/
def RAM_SIZE : Nat := 0x2000

/-- Embeds `struct Memory { ram: [u8; RAM_SIZE] }` from memory.rs. The backing
array is modelled as a total function from addresses to stored byte values. -/
structure Memory where
  ram : Nat → Nat

/-- Embeds `Memory::new` from memory.rs: the array is filled with `0x00`. -/
def Memory.new : Memory := ⟨fun _ => 0x00⟩

/-- Embeds `Memory::read` from memory.rs: the match arm `0x0000..=0x1FFF` returns
the array cell at the address; any other address hits the fatal out-of-range arm,
modelled as `none`. -/
def Memory.read (m : Memory) (address : Nat) : Option Nat :=
  if address ≤ 0x1FFF then some (m.ram address) else none

/-- Embeds `Memory::write` from memory.rs: the match arm `0x0000..=0x1FFF` stores
the value in the array cell at the address; any other address hits the fatal
out-of-range arm, modelled as `none`. The stored value is reduced mod 256, the
coercion the source obtains from the `u8` type of its `value` argument. -/
def Memory.write (m : Memory) (value : Nat) (address : Nat) : Option Memory :=
  if address ≤ 0x1FFF then
    some ⟨fun a => if a = address then value % 256 else m.ram a⟩
  else none

/-- Embeds `enum AddressingMode` from instruction.rs: exactly the twelve declared
variants IMP, IMM, ZP0, ZPX, ZPY, REL, ABS, ABX, ABY, IND, IZX, IZY. -/
inductive AddressingMode where
  | IMP | IMM | ZP0 | ZPX | ZPY | REL | ABS | ABX | ABY | IND | IZX | IZY
  deriving DecidableEq, Fintype

/-- Embeds `enum Instruction` from instruction.rs: the 56 named mnemonics plus the
XXX sentinel that captures unimplemented opcodes. -/
inductive Instruction where
  | ADC | AND | ASL | BCC | BCS | BEQ | BIT | BMI | BNE | BPL | BRK | BVC | BVS | CLC
  | CLD | CLI | CLV | CMP | CPX | CPY | DEC | DEX | DEY | EOR | INC | INX | INY | JMP
  | JSR | LDA | LDX | LDY | LSR | NOP | ORA | PHA | PHP | PLA | PLP | ROL | ROR | RTI
  | RTS | SBC | SEC | SED | SEI | STA | STX | STY | TAX | TAY | TSX | TXA | TXS | TYA
  | XXX
  deriving DecidableEq, Fintype

/-- Embeds `struct Opcode` from instruction.rs. -/
structure Opcode where
  instruction : Instruction
  addressing_mode : AddressingMode
  cycles : Nat
  raw_data : Nat
  deriving DecidableEq

/-- Embeds `Opcode::from` from instruction.rs (renamed: `from` is a reserved word
in Lean). -/
def Opcode.build (instruction : Instruction) (addressing_mode : AddressingMode)
    (cycles : Nat) (raw_data : Nat) : Opcode :=
  ⟨instruction, addressing_mode, cycles, raw_data⟩

/-- Embeds `DECODE_TABLE` from decoder.rs verbatim: the vec! literal holds exactly
three Opcode entries, for raw bytes 0x00, 0x01 and 0x02. -/
def DECODE_TABLE : List Opcode :=
  [Opcode.build Instruction.BRK AddressingMode.IMP 7 0x00,
   Opcode.build Instruction.ORA AddressingMode.IZX 6 0x01,
   Opcode.build Instruction.XXX AddressingMode.IMP 2 0x02]

/-- Embeds `enum Status` from cpu.rs, the bitflags variant list for the flags
register P. -/
inductive Status where
  | C | Z | I | D | B | Unused | V | N
  deriving DecidableEq, Fintype

/-- The `#[repr(u8)]` discriminants assigned to the Status variants in cpu.rs. -/
def Status.val : Status → Nat
  | Status.C => 0b00000001
  | Status.Z => 0b00000010
  | Status.I => 0b00000100
  | Status.D => 0b00001000
  | Status.B => 0b00010000
  | Status.Unused => 0b00100000
  | Status.V => 0b01000000
  | Status.N => 0b10000000

/-- Embeds `struct Cpu` from cpu.rs. The `BitFlags<Status>` field `p` is modelled
as its underlying packed byte. -/
structure Cpu where
  a : Nat
  x : Nat
  y : Nat
  sp : Nat
  pc : Nat
  p : Nat
  memory : Memory

/-- Embeds `Cpu::new` from cpu.rs: every register is 0 and `p` is
`make_bitflags!(Status::{})`, the empty flag set, whose packed byte is 0. -/
def Cpu.new : Cpu := ⟨0, 0, 0, 0, 0, 0, Memory.new⟩

/-- Embeds `Cpu::execute` from cpu.rs: the body holds only the five step comments
and no code, so the function consumes no state and returns the unit value. -/
def Cpu.execute : Unit := ()

/-- Embeds `Cpu::get_operand_address` from cpu.rs. In the source the ZPX, ZPY, REL,
ABX, ABY, IND and both indexed-indirect arms are empty blocks `{}` producing no
address value; those arms are embedded as `none`. The source spells its zero-page
and indexed-indirect match patterns ZPG, IDX and IDY, names absent from the
declared AddressingMode enum (which has ZP0, IZX, IZY); they are mapped to the
declared variants here. The ABS arm is `self.memory.read(self.pc)`: a single byte
read at pc used directly as the address. The out-of-range panic of Memory.read
propagates as `none`. -/
def Cpu.get_operand_address (cpu : Cpu) (addressing_mode : AddressingMode) : Option Nat :=
  match addressing_mode with
  | AddressingMode.IMP => some 0
  | AddressingMode.IMM => some cpu.pc
  | AddressingMode.ZP0 => cpu.memory.read cpu.pc
  | AddressingMode.ZPX => none
  | AddressingMode.ZPY => none
  | AddressingMode.REL => none
  | AddressingMode.ABS => cpu.memory.read cpu.pc
  | AddressingMode.ABX => none
  | AddressingMode.ABY => none
  | AddressingMode.IND => none
  | AddressingMode.IZX => none
  | AddressingMode.IZY => none

/-- Modelled from the spec: `as_byte` on the Status flags is absent from src (the
spec's Status Flags contract: "as_byte must force bit 5 to 1"). The flag set is
its packed byte; bit 5 is the Unused flag, discriminant 0x20 in cpu.rs. -/
def Status.as_byte (p : Nat) : Nat := p ||| Status.Unused.val

/-- Modelled from the spec: `from_byte` on the Status flags is absent from src (the
spec's Status Flags contract: "the restored value is taken verbatim"). -/
def Status.from_byte (b : Nat) : Nat := b

/-- A concrete CPU state for evaluating operand resolution: pc = 0, X = 2, with
memory holding 0xFF at address 0 and 0x12 at address 1. -/
def cpu1 : Cpu :=
  ⟨0, 2, 0, 0, 0, 0, ⟨fun a => if a = 0 then 0xFF else if a = 1 then 0x12 else 0⟩⟩

/-- C1: the decode table is not total over bytes 0-255: it holds exactly three
entries (raw bytes 0x00-0x02), looking up byte 0x03 finds no Opcode, and its
length is not the required 256. -/
theorem decode_table_has_three_entries :
    DECODE_TABLE.length = 3 ∧ DECODE_TABLE[3]? = none ∧ DECODE_TABLE.length ≠ 256 := by
  refine ⟨rfl, rfl, by decide⟩

/-- C2: for every u16 address, Memory.read and Memory.write succeed exactly on the
backing range 0x0000-0x1FFF (read returning the stored cell at the unmodified
address) and both fail fatally (none) outside it, never a wrapped or clamped
result. -/
theorem memory_access_range (m : Memory) (v a : Nat) (_ha : a < 0x10000) :
    (a ≤ 0x1FFF → m.read a = some (m.ram a) ∧ (m.write v a).isSome) ∧
    (0x1FFF < a → m.read a = none ∧ m.write v a = none) := by
  constructor
  · intro h
    simp [Memory.read, Memory.write, h]
  · intro h
    simp [Memory.read, Memory.write, Nat.not_le.mpr h]

/-- Witness for C2 at the in-range address 5 and the out-of-range address 0x2000. -/
theorem memory_access_range_witness :
    (Memory.new.read 5 = some (Memory.new.ram 5) ∧ (Memory.new.write 7 5).isSome) ∧
    (Memory.new.read 0x2000 = none ∧ Memory.new.write 7 0x2000 = none) :=
  ⟨(memory_access_range Memory.new 7 5 (by decide)).1 (by decide),
   (memory_access_range Memory.new 7 0x2000 (by decide)).2 (by decide)⟩

/-- C3: Cpu::execute has an empty body: it consumes no CPU or memory state,
performs no fetch, decode or execution, and returns unit rather than a cycle
count. -/
theorem execute_is_empty : Cpu.execute = () := rfl

/-- C4: the flag byte round-trips through as_byte then from_byte on every bit
other than bit 5, and bit 5 of the restored byte is always 1. -/
theorem status_byte_round_trip (p i : Nat) (hi : i ≠ 5) :
    (Status.from_byte (Status.as_byte p)).testBit i = p.testBit i ∧
    (Status.from_byte (Status.as_byte p)).testBit 5 = true := by
  have h32 : Status.Unused.val = 2 ^ 5 := by decide
  constructor
  · simp [Status.from_byte, Status.as_byte, h32, Nat.testBit_or,
      Nat.testBit_two_pow_of_ne (Ne.symm hi)]
  · have h5 : Nat.testBit Status.Unused.val 5 = true := by decide
    simp [Status.from_byte, Status.as_byte, Nat.testBit_or, h5]

/-- Witness for C4 at the flag byte 0x4A and bit 7. -/
theorem status_byte_round_trip_witness :
    (Status.from_byte (Status.as_byte 0x4A)).testBit 7 = (0x4A : Nat).testBit 7 ∧
    (Status.from_byte (Status.as_byte 0x4A)).testBit 5 = true :=
  status_byte_round_trip 0x4A 7 (by decide)

/-- C5: zero-page indexed resolution is an empty block in the source: on the state
with fetched base byte 0xFF and X = 2 it produces no address at all — in
particular not the wrapped address 0x01 — and ZeroPage,Y likewise produces
nothing. -/
theorem zero_page_indexed_unresolved :
    cpu1.get_operand_address AddressingMode.ZPX = none ∧
    cpu1.get_operand_address AddressingMode.ZPY = none ∧
    cpu1.get_operand_address AddressingMode.ZPX ≠ some 0x01 := by
  refine ⟨rfl, rfl, by decide⟩

/-- C6: Absolute resolution in the source reads a single byte at pc and uses it
directly as the address: on the state with mem[pc] = 0xFF and mem[pc+1] = 0x12 it
yields 0x00FF, not the little-endian two-byte address 0x12FF. -/
theorem absolute_reads_single_byte :
    cpu1.get_operand_address AddressingMode.ABS = some 0xFF ∧
    cpu1.get_operand_address AddressingMode.ABS ≠ some 0x12FF := by
  refine ⟨by decide, by decide⟩

/-- C7 counterexample: on the concrete state cpu1, Immediate resolution returns
the memory address pc = 0 — where the operand byte 0xFF sits — and not the fetched
byte itself, and Implied resolution returns 0, which is itself an ordinary
readable in-range memory address; neither mode yields a non-address marker. -/
theorem operand_marker_counterexample :
    cpu1.get_operand_address AddressingMode.IMM = some 0 ∧
    cpu1.memory.read 0 = some 0xFF ∧
    (0 : Nat) ≠ 0xFF ∧
    cpu1.get_operand_address AddressingMode.IMP = some 0 ∧
    (cpu1.memory.read 0).isSome = true := by
  decide

/-- C7 amended: Implied resolution returns the constant address 0 and Immediate
resolution returns the current program counter — the memory address at which the
immediate operand byte resides — both ordinary 16-bit address values rather than a
distinguished non-address marker. -/
theorem implied_immediate_resolution (cpu : Cpu) :
    cpu.get_operand_address AddressingMode.IMP = some 0 ∧
    cpu.get_operand_address AddressingMode.IMM = some cpu.pc :=
  ⟨rfl, rfl⟩

/-- C8 counterexample: the AddressingMode enumeration does not contain 13
addressing modes. -/
theorem addressing_mode_count_ne : Fintype.card AddressingMode ≠ 13 := by decide

/-- C8 amended: the Instruction enumeration contains exactly 56 named mnemonics
plus 1 unimplemented sentinel (57 constructors in all), and the AddressingMode
enumeration contains exactly 12 addressing modes. -/
theorem enumeration_cardinalities :
    Fintype.card Instruction = 57 ∧ Fintype.card AddressingMode = 12 := by
  refine ⟨by decide, by decide⟩

/-- C9: writing one in-range cell makes a subsequent read of that address return
the written byte, and leaves the read result of every other address unchanged. -/
theorem write_single_cell (m : Memory) (v a b : Nat)
    (ha : a ≤ 0x1FFF) (hv : v < 256) (hb : b ≠ a) :
    (m.write v a).bind (fun m2 => m2.read a) = some v ∧
    (m.write v a).bind (fun m2 => m2.read b) = m.read b := by
  constructor
  · simp [Memory.write, Memory.read, ha, Nat.mod_eq_of_lt hv]
  · simp [Memory.write, Memory.read, ha, hb]

/-- Witness for C9: writing 7 at address 3 of fresh memory, then reading back
addresses 3 and 4. -/
theorem write_single_cell_witness :
    (Memory.new.write 7 3).bind (fun m2 => m2.read 3) = some 7 ∧
    (Memory.new.write 7 3).bind (fun m2 => m2.read 4) = Memory.new.read 4 :=
  write_single_cell Memory.new 7 3 4 (by decide) (by decide) (by decide)

/-- C10: a freshly constructed CPU is fully zeroed — A, X, Y, SP, PC are 0 and the
status byte is 0 with every bit clear, including bit 5 — and both the CPU's fresh
memory and Memory.new read 0 at every in-range address. -/
theorem new_cpu_zeroed (addr : Nat) (h : addr ≤ 0x1FFF) :
    Cpu.new.a = 0 ∧ Cpu.new.x = 0 ∧ Cpu.new.y = 0 ∧ Cpu.new.sp = 0 ∧
    Cpu.new.pc = 0 ∧ Cpu.new.p = 0 ∧ Cpu.new.p.testBit 5 = false ∧
    Cpu.new.memory.read addr = some 0 ∧ Memory.new.read addr = some 0 := by
  refine ⟨rfl, rfl, rfl, rfl, rfl, rfl, by decide, ?_, ?_⟩ <;>
    simp [Cpu.new, Memory.new, Memory.read, h]

/-- Witness for C10 at the last in-range address 0x1FFF. -/
theorem new_cpu_zeroed_witness :
    Cpu.new.a = 0 ∧ Cpu.new.x = 0 ∧ Cpu.new.y = 0 ∧ Cpu.new.sp = 0 ∧
    Cpu.new.pc = 0 ∧ Cpu.new.p = 0 ∧ Cpu.new.p.testBit 5 = false ∧
    Cpu.new.memory.read 0x1FFF = some 0 ∧ Memory.new.read 0x1FFF = some 0 :=
  new_cpu_zeroed 0x1FFF (by decide)

end Neru
